import Mathlib

/-!
Verification development for the point-of-sale pricing and transaction
engine (models/product.py, models/cart.py, models/customer.py,
models/transaction.py, services/discount_service.py, services/tax_service.py,
services/transaction_service.py).

The Python code is shallowly embedded: money amounts are unbounded integers
(`Nat` where the source value is a sum of products of validated positive
ints, `Int` where the source can go negative), Python `int(x * 0.07)`-style
truncation of a non-negative product is embedded as exact rational
floor, i.e. `x * 7 / 100` in `Nat`.  The wall clock used by
`DayOfWeekDiscountStrategy` (`datetime.now().weekday()`) is passed in as an
explicit `day : Nat` parameter (0 = Monday .. 6 = Sunday), and the tax mode
string of `TaxService` as a closed inductive.  Exceptions are embedded as
`Except`/`Option` results.
-/

/-- `KategoriBarang` enum from models/product.py. -/
inductive KategoriBarang where
  | makanan
  | minuman
  | kebutuhan
deriving DecidableEq, Repr

/-- A `ProductItem` from models/product.py: a product snapshot (name, unit
price `harga`, category) together with a purchase quantity `jumlah`.
The `satuan` (unit label) field is carried verbatim.  Constructor
validation in the source requires `harga > 0` and `jumlah > 0`; the claims
proved below do not need those bounds, so the fields are plain `Nat`. -/
structure ProductItem where
  nama : String
  harga : Nat
  satuan : String
  kategori : KategoriBarang
  jumlah : Nat
deriving DecidableEq, Repr

/-- `item.get_total_price()` from models/product.py: `harga * jumlah`. -/
def get_total_price (item : ProductItem) : Nat :=
  item.harga * item.jumlah

/-- Customer hierarchy of models/customer.py (`Customer`, `PremiumCustomer`,
`VIPCustomer`) flattened into one structure with a kind tag.  `is_member_flag`
is the `is_member` constructor argument of the plain `Customer`;
`PremiumCustomer` and `VIPCustomer` force `is_member=True` in their
constructors.  `membership_points` drives the premium tier. -/
inductive CustomerKind where
  | regular
  | premium
  | vip
deriving DecidableEq, Repr

structure BaseCustomer where
  nama : String
  umur : Nat
  kind : CustomerKind
  is_member_flag : Bool
  membership_points : Nat
deriving DecidableEq, Repr

/-- `customer.is_member`: the flag for a plain `Customer`; always true for
premium and VIP customers. -/
def is_member (c : BaseCustomer) : Bool :=
  match c.kind with
  | .regular => c.is_member_flag
  | .premium => true
  | .vip => true

/-- `PremiumCustomer._calculate_tier` from models/customer.py. -/
def premium_tier (points : Nat) : String :=
  if points ≥ 10000 then "Platinum"
  else if points ≥ 5000 then "Gold"
  else if points ≥ 1000 then "Silver"
  else "Bronze"

/-- `PremiumCustomer.get_discount_multiplier` tier table, as a rational. -/
def tier_rate (tier : String) : ℚ :=
  if tier = "Bronze" then 7/100
  else if tier = "Silver" then 10/100
  else if tier = "Gold" then 15/100
  else if tier = "Platinum" then 20/100
  else 5/100

/-- `ShoppingCart` from models/cart.py: insertion-ordered mapping from
product name to `ProductItem` (embedded as the list of entries), the owning
customer (`none` embeds a Python `None` customer), and the finalized flag. -/
structure ShoppingCart where
  items : List ProductItem
  customer : Option BaseCustomer
  is_finalized : Bool
deriving DecidableEq, Repr

/-- `cart.is_empty`. -/
def cart_is_empty (cart : ShoppingCart) : Bool :=
  cart.items.isEmpty

/-- `cart.calculate_subtotal()`: sum of `get_total_price` over all items. -/
def calculate_subtotal (cart : ShoppingCart) : Nat :=
  (cart.items.map get_total_price).sum

/-- The `quantity` entry of `cart.get_category_totals()` for one category:
total quantity over the cart items of that category. -/
def category_quantity (cart : ShoppingCart) (c : KategoriBarang) : Nat :=
  ((cart.items.filter (fun i => i.kategori = c)).map (·.jumlah)).sum

/-- The `amount` entry of `cart.get_category_totals()` for one category:
total price over the cart items of that category. -/
def category_amount (cart : ShoppingCart) (c : KategoriBarang) : Nat :=
  ((cart.items.filter (fun i => i.kategori = c)).map get_total_price).sum

/-- `category in cart.get_category_totals()`: the category key is present
exactly when some cart item has that category (`defaultdict` entries are
created by iterating the items). -/
def has_category (cart : ShoppingCart) (c : KategoriBarang) : Bool :=
  cart.items.any (fun i => i.kategori = c)

/-- First-occurrence update used by `add_item` when the product key already
exists in the dict: bump that entry's quantity. -/
def bump_first (items : List ProductItem) (item : ProductItem) : List ProductItem :=
  match items with
  | [] => []
  | j :: rest =>
    if j.nama = item.nama then { j with jumlah := j.jumlah + item.jumlah } :: rest
    else j :: bump_first rest item

/-- First-occurrence removal used by `remove_item` (`del` on the dict key). -/
def erase_first (items : List ProductItem) (key : String) : List ProductItem :=
  match items with
  | [] => []
  | j :: rest => if j.nama = key then rest else j :: erase_first rest key

/-- First-occurrence quantity overwrite used by `update_quantity`. -/
def set_quantity_first (items : List ProductItem) (key : String) (q : Nat) :
    List ProductItem :=
  match items with
  | [] => []
  | j :: rest =>
    if j.nama = key then { j with jumlah := q } :: rest
    else j :: set_quantity_first rest key q

/-- `cart.add_item(product_item)` from models/cart.py: returns `False`
leaving the cart untouched when finalized; otherwise merges the quantity
into an existing entry with the same product name or inserts a new entry. -/
def add_item (cart : ShoppingCart) (item : ProductItem) : Bool × ShoppingCart :=
  if cart.is_finalized then (false, cart)
  else if cart.items.any (fun j => j.nama = item.nama) then
    (true, { cart with items := bump_first cart.items item })
  else
    (true, { cart with items := cart.items ++ [item] })

/-- `cart.remove_item(product_name)`: finalized carts refuse; the name is
normalized with `strip().lower()` before lookup. -/
def remove_item (cart : ShoppingCart) (product_name : String) : Bool × ShoppingCart :=
  if cart.is_finalized then (false, cart)
  else
    let key := product_name.trim.toLower
    if cart.items.any (fun j => j.nama = key) then
      (true, { cart with items := erase_first cart.items key })
    else (false, cart)

/-- `cart.update_quantity(product_name, new_quantity)`: finalized carts
refuse (before any other check); a non-positive quantity raises
`ValueError`, embedded as `Except.error`. -/
def update_quantity (cart : ShoppingCart) (product_name : String)
    (new_quantity : Int) : Except String (Bool × ShoppingCart) :=
  if cart.is_finalized then .ok (false, cart)
  else if new_quantity ≤ 0 then .error "Kuantitas harus lebih dari 0"
  else
    let key := product_name.trim.toLower
    if cart.items.any (fun j => j.nama = key) then
      .ok (true, { cart with items := set_quantity_first cart.items key new_quantity.toNat })
    else .ok (false, cart)

/-- `cart.clear_cart()`: finalized carts refuse, otherwise empty the map. -/
def clear_cart (cart : ShoppingCart) : Bool × ShoppingCart :=
  if cart.is_finalized then (false, cart)
  else (true, { cart with items := [] })

/-- `cart.finalize_cart()`. -/
def finalize_cart (cart : ShoppingCart) : ShoppingCart :=
  { cart with is_finalized := true }

/-- `DiscountDetail` value object from models/transaction.py.  The float
`percentage` field is embedded as an exact rational. -/
structure DiscountDetail where
  name : String
  amount : Nat
  percentage : ℚ
  description : String
deriving DecidableEq, Repr

/-- `SeniorDiscountStrategy.is_applicable` (default `min_age = 60`):
`hasattr(customer, "umur") and customer.umur >= 60`; a `None` customer has
no attributes. -/
def senior_is_applicable (customer : Option BaseCustomer) : Bool :=
  match customer with
  | some c => c.umur ≥ 60
  | none => false

/-- `SeniorDiscountStrategy.calculate_discount` (default 10 percent). -/
def senior_calculate_discount (cart : ShoppingCart)
    (customer : Option BaseCustomer) : DiscountDetail :=
  if senior_is_applicable customer then
    let subtotal := calculate_subtotal cart
    { name := "Diskon Lansia"
      amount := subtotal * 10 / 100
      percentage := 10/100
      description := "Diskon 10 persen untuk usia 60+ tahun" }
  else
    { name := "Diskon Lansia", amount := 0, percentage := 0, description := "Tidak berlaku" }

/-- `MemberDiscountStrategy.is_applicable`. -/
def member_is_applicable (customer : Option BaseCustomer) : Bool :=
  match customer with
  | some c => is_member c
  | none => false

/-- The percentage picked by `MemberDiscountStrategy.calculate_discount`
via isinstance dispatch: VIP 25 percent, premium by tier, regular member
5 percent. -/
def member_percentage (c : BaseCustomer) : ℚ :=
  match c.kind with
  | .vip => 25/100
  | .premium => tier_rate (premium_tier c.membership_points)
  | .regular => 5/100

/-- The tier label interpolated into the member discount name. -/
def member_tier_label (c : BaseCustomer) : String :=
  match c.kind with
  | .vip => "VIP"
  | .premium => premium_tier c.membership_points
  | .regular => "Regular"

/-- `MemberDiscountStrategy.calculate_discount`. -/
def member_calculate_discount (cart : ShoppingCart)
    (customer : Option BaseCustomer) : DiscountDetail :=
  if member_is_applicable customer then
    match customer with
    | some c =>
      let subtotal := calculate_subtotal cart
      let pct := member_percentage c
      { name := "Diskon Member " ++ member_tier_label c
        amount := subtotal * pct.num.toNat / pct.den
        percentage := pct
        description := "Diskon untuk member " ++ member_tier_label c }
    | none =>
      { name := "Diskon Member", amount := 0, percentage := 0, description := "Tidak berlaku" }
  else
    { name := "Diskon Member", amount := 0, percentage := 0, description := "Tidak berlaku" }

/-- The fixed iteration order of `CategoryDiscountStrategy._category_rules`
(dict insertion order: makanan, minuman, kebutuhan). -/
def category_rules_order : List KategoriBarang :=
  [.makanan, .minuman, .kebutuhan]

/-- `min_items` per category in `CategoryDiscountStrategy._category_rules`. -/
def category_min_items (c : KategoriBarang) : Nat :=
  match c with
  | .makanan => 3
  | .minuman => 3
  | .kebutuhan => 2

/-- The `title()`-cased category label used in the per-category discount
name `"Diskon Kategori {category.value.title()}"`. -/
def category_title (c : KategoriBarang) : String :=
  match c with
  | .makanan => "Makanan"
  | .minuman => "Minuman"
  | .kebutuhan => "Kebutuhan"

/-- The `DiscountDetail` emitted by `CategoryDiscountStrategy` for one
qualifying category: 7 percent of that category's amount. -/
def category_detail (cart : ShoppingCart) (c : KategoriBarang) : DiscountDetail :=
  { name := "Diskon Kategori " ++ category_title c
    amount := category_amount cart c * 7 / 100
    percentage := 7/100
    description := "Diskon 7 persen untuk kategori " ++ category_title c }

/-- `CategoryDiscountStrategy.is_applicable`: some category is present in
`get_category_totals()` with quantity at or above its `min_items`. -/
def category_is_applicable (cart : ShoppingCart) : Bool :=
  category_rules_order.any (fun c =>
    has_category cart c && category_min_items c ≤ category_quantity cart c)

/-- `CategoryDiscountStrategy.calculate_discount`: one detail per category
that is present in the cart and meets its `min_items` threshold, in rule
order. -/
def category_calculate_discount (cart : ShoppingCart) : List DiscountDetail :=
  category_rules_order.filterMap (fun c =>
    if has_category cart c && category_min_items c ≤ category_quantity cart c then
      some (category_detail cart c)
    else none)

/-- `DayOfWeekDiscountStrategy._day_discounts` keys: Monday (0) and
Saturday (5). -/
def day_is_applicable (day : Nat) : Bool :=
  day = 0 || day = 5

/-- The day discount percentage: Monday 15 percent, Saturday 20 percent. -/
def day_percentage (day : Nat) : ℚ :=
  if day = 0 then 15/100 else 20/100

/-- `DayOfWeekDiscountStrategy.calculate_discount`, with the wall-clock
weekday passed in explicitly. -/
def day_calculate_discount (cart : ShoppingCart) (day : Nat) : DiscountDetail :=
  if day_is_applicable day then
    let subtotal := calculate_subtotal cart
    let pct := day_percentage day
    { name := if day = 0 then "Diskon Hari Senin" else "Diskon Hari Sabtu"
      amount := subtotal * pct.num.toNat / pct.den
      percentage := pct
      description := "Diskon spesial hari" }
  else
    { name := "Diskon Hari", amount := 0, percentage := 0, description := "Tidak ada diskon hari ini" }

/-- `DiscountService.calculate_all_discounts` with the default strategy
list `[Senior, Member, DayOfWeek]`: each non-category strategy contributes
its result when it is applicable and the amount is positive; the category
strategy results are appended afterwards (without the positive-amount
filter) when the category strategy is applicable. -/
def calculate_all_discounts (cart : ShoppingCart) (customer : Option BaseCustomer)
    (day : Nat) : List DiscountDetail :=
  (if senior_is_applicable customer &&
      0 < (senior_calculate_discount cart customer).amount then
    [senior_calculate_discount cart customer] else []) ++
  (if member_is_applicable customer &&
      0 < (member_calculate_discount cart customer).amount then
    [member_calculate_discount cart customer] else []) ++
  (if day_is_applicable day &&
      0 < (day_calculate_discount cart day).amount then
    [day_calculate_discount cart day] else []) ++
  (if category_is_applicable cart then category_calculate_discount cart else [])

/-- `DiscountService.get_total_discount_amount`. -/
def get_total_discount_amount (cart : ShoppingCart) (customer : Option BaseCustomer)
    (day : Nat) : Nat :=
  ((calculate_all_discounts cart customer day).map (·.amount)).sum

/-- `TaxDetail` dataclass from services/tax_service.py.  `taxable_amount`
and `amount` are `Int` because the strategies receive the (possibly
negative) post-discount subtotal; every constructed amount is in fact
non-negative, matching the dataclass validation. -/
structure TaxDetail where
  name : String
  rate : ℚ
  amount : Int
  taxable_amount : Int
  description : String
deriving DecidableEq, Repr

/-- `StandardTaxStrategy` defaults: rate 10 percent, threshold 100,000. -/
def standard_tax_threshold : Int := 100000

/-- `StandardTaxStrategy.is_applicable` with default threshold. -/
def standard_is_applicable (subtotal_after_discount : Int) : Bool :=
  standard_tax_threshold < subtotal_after_discount

/-- `StandardTaxStrategy.calculate_tax` with the default configuration.
On the applicable branch the subtotal is strictly positive, so Python's
`int(x * 0.10)` truncation is the rational floor `x * 10 / 100`. -/
def standard_calculate_tax (subtotal_after_discount : Int) : TaxDetail :=
  if standard_is_applicable subtotal_after_discount then
    { name := "PPN"
      rate := 10/100
      amount := ((subtotal_after_discount.toNat * 10 / 100 : Nat) : Int)
      taxable_amount := subtotal_after_discount
      description := "Pajak 10 persen untuk pembelian di atas threshold" }
  else
    { name := "PPN", rate := 0, amount := 0, taxable_amount := 0,
      description := "Tidak kena pajak (di bawah threshold)" }

/-- `CategoryBasedTaxStrategy._category_tax_rates` numerators over 100. -/
def category_tax_rate_num (c : KategoriBarang) : Nat :=
  match c with
  | .makanan => 5
  | .minuman => 8
  | .kebutuhan => 12

/-- `CategoryBasedTaxStrategy.is_applicable`: threshold 50,000. -/
def category_tax_is_applicable (subtotal_after_discount : Int) : Bool :=
  (50000 : Int) < subtotal_after_discount

/-- The categories of `cart.get_items_by_category()` in iteration order:
first occurrence order of the cart's items. -/
def categories_in_order (cart : ShoppingCart) : List KategoriBarang :=
  cart.items.foldl
    (fun acc i => if i.kategori ∈ acc then acc else acc ++ [i.kategori]) []

/-- `CategoryBasedTaxStrategy.calculate_tax`: one `TaxDetail` per category
present in the cart (every category key is in the rate table), taxing that
category's own total. -/
def category_calculate_tax (subtotal_after_discount : Int)
    (cart : ShoppingCart) : List TaxDetail :=
  if category_tax_is_applicable subtotal_after_discount then
    (categories_in_order cart).map (fun c =>
      { name := "Pajak " ++ category_title c
        rate := (category_tax_rate_num c : ℚ)/100
        amount := ((category_amount cart c * category_tax_rate_num c / 100 : Nat) : Int)
        taxable_amount := (category_amount cart c : Int)
        description := "Pajak kategori " ++ category_title c })
  else []

/-- `LuxuryTaxStrategy.is_applicable`: at or above the lowest bracket. -/
def luxury_is_applicable (subtotal_after_discount : Int) : Bool :=
  (500000 : Int) ≤ subtotal_after_discount

/-- `LuxuryTaxStrategy.calculate_tax`: highest bracket whose minimum is at
or below the subtotal (brackets 500k at 5 percent, 1,000k at 8 percent,
2,000k at 12 percent), applied to the whole subtotal. -/
def luxury_calculate_tax (subtotal_after_discount : Int) : TaxDetail :=
  if luxury_is_applicable subtotal_after_discount then
    if (2000000 : Int) ≤ subtotal_after_discount then
      { name := "Luxury Tier 3", rate := 12/100
        amount := ((subtotal_after_discount.toNat * 12 / 100 : Nat) : Int)
        taxable_amount := subtotal_after_discount
        description := "Luxury tax 12 persen" }
    else if (1000000 : Int) ≤ subtotal_after_discount then
      { name := "Luxury Tier 2", rate := 8/100
        amount := ((subtotal_after_discount.toNat * 8 / 100 : Nat) : Int)
        taxable_amount := subtotal_after_discount
        description := "Luxury tax 8 persen" }
    else
      { name := "Luxury Tier 1", rate := 5/100
        amount := ((subtotal_after_discount.toNat * 5 / 100 : Nat) : Int)
        taxable_amount := subtotal_after_discount
        description := "Luxury tax 5 persen" }
  else
    { name := "Luxury Tax", rate := 0, amount := 0, taxable_amount := 0,
      description := "Tidak masuk kategori luxury" }

/-- The four valid values of `TaxService._tax_mode` (`set_tax_mode`
rejects every other string). -/
inductive TaxMode where
  | standard
  | category
  | luxury
  | combined
deriving DecidableEq, Repr

/-- `TaxService.calculate_tax`: dispatch on the mode.  Standard and luxury
results are kept only when positive; category results are kept as
computed; combined keeps the larger of standard and luxury (standard on
ties), or nothing when both are zero. -/
def tax_service_calculate_tax (mode : TaxMode) (subtotal_after_discount : Int)
    (cart : ShoppingCart) : List TaxDetail :=
  match mode with
  | .standard =>
    let t := standard_calculate_tax subtotal_after_discount
    if 0 < t.amount then [t] else []
  | .category => category_calculate_tax subtotal_after_discount cart
  | .luxury =>
    let t := luxury_calculate_tax subtotal_after_discount
    if 0 < t.amount then [t] else []
  | .combined =>
    let s := standard_calculate_tax subtotal_after_discount
    let l := luxury_calculate_tax subtotal_after_discount
    if s.amount < l.amount then [l]
    else if 0 < s.amount then [s]
    else []

/-- `TaxService.get_total_tax_amount`. -/
def get_total_tax_amount (mode : TaxMode) (subtotal_after_discount : Int)
    (cart : ShoppingCart) : Int :=
  ((tax_service_calculate_tax mode subtotal_after_discount cart).map (·.amount)).sum

/-- Result dict of `PaymentProcessor.validate_payment`. -/
structure PaymentValidation where
  is_valid : Bool
  is_sufficient : Bool
  change_amount : Int
  outstanding_amount : Int
  message : String
deriving DecidableEq, Repr

/-- `PaymentProcessor._supported_methods`. -/
def supported_methods : List String :=
  ["cash", "card", "digital", "transfer"]

/-- `PaymentProcessor.validate_payment` from services/transaction_service.py.
The Indonesian messages are carried verbatim except for the source's
thousands-separator formatting of the outstanding amount, which is elided
as a plain `toString`. -/
def validate_payment (total_amount : Int) (payment_amount : Int)
    (method : String) : PaymentValidation :=
  if method ∉ supported_methods then
    { is_valid := false, is_sufficient := false, change_amount := 0,
      outstanding_amount := 0,
      message := "Metode pembayaran " ++ method ++ " tidak didukung" }
  else if payment_amount < 0 then
    { is_valid := false, is_sufficient := false, change_amount := 0,
      outstanding_amount := 0,
      message := "Jumlah pembayaran tidak boleh negatif" }
  else if total_amount ≤ payment_amount then
    { is_valid := true, is_sufficient := true,
      change_amount := payment_amount - total_amount,
      outstanding_amount := 0, message := "Pembayaran berhasil" }
  else
    { is_valid := true, is_sufficient := false, change_amount := 0,
      outstanding_amount := total_amount - payment_amount,
      message := "Kurang bayar Rp" ++ toString (total_amount - payment_amount) }

/-- Result dict of `PaymentProcessor.process_installment_payment`. -/
structure InstallmentResult where
  total_paid : Int
  is_complete : Bool
  change_amount : Int
  outstanding_amount : Int
  installment_count : Nat
deriving DecidableEq, Repr

/-- `PaymentProcessor.process_installment_payment`. -/
def process_installment_payment (total_amount : Int) (installments : List Int) :
    InstallmentResult :=
  let total_paid := installments.sum
  { total_paid := total_paid
    is_complete := total_amount ≤ total_paid
    change_amount := max 0 (total_paid - total_amount)
    outstanding_amount := max 0 (total_amount - total_paid)
    installment_count := installments.length }

/-- The breakdown dict returned by
`TransactionOrchestrator.calculate_transaction_totals`. -/
structure TotalsBreakdown where
  subtotal : Nat
  discounts : List DiscountDetail
  total_discount : Nat
  subtotal_after_discount : Int
  taxes : List TaxDetail
  total_tax : Int
  total_amount : Int
deriving DecidableEq, Repr

/-- `TransactionOrchestrator.calculate_transaction_totals`: subtotal, all
discounts, post-discount subtotal, taxes on the post-discount subtotal,
and the final total. -/
def calculate_transaction_totals (mode : TaxMode) (day : Nat)
    (cart : ShoppingCart) : TotalsBreakdown :=
  let subtotal := calculate_subtotal cart
  let discounts := calculate_all_discounts cart cart.customer day
  let total_discount : Nat := (discounts.map (·.amount)).sum
  let subtotal_after_discount : Int := (subtotal : Int) - (total_discount : Int)
  let taxes := tax_service_calculate_tax mode subtotal_after_discount cart
  let total_tax := (taxes.map (·.amount)).sum
  { subtotal := subtotal
    discounts := discounts
    total_discount := total_discount
    subtotal_after_discount := subtotal_after_discount
    taxes := taxes
    total_tax := total_tax
    total_amount := subtotal_after_discount + total_tax }

/-- Result dict of `TransactionOrchestrator.validate_transaction_data`. -/
structure ValidationResult where
  is_valid : Bool
  errors : List String
  warnings : List String
deriving DecidableEq, Repr

/-- `TransactionOrchestrator.validate_transaction_data`: collects errors
for an empty cart, a missing customer, and an invalid payment (the inner
`validate_payment` is called with the default method `cash`); an
insufficient payment contributes a warning.  `is_valid` is exactly
"no error was recorded". -/
def validate_transaction_data (mode : TaxMode) (day : Nat)
    (cart : ShoppingCart) (payment_amount : Int) : ValidationResult :=
  let totals := calculate_transaction_totals mode day cart
  let pv := validate_payment totals.total_amount payment_amount "cash"
  let errors :=
    (if cart_is_empty cart then ["Keranjang belanja kosong"] else []) ++
    (if cart.customer.isNone then ["Customer tidak valid"] else []) ++
    (if pv.is_valid then [] else [pv.message])
  { is_valid := !cart_is_empty cart && cart.customer.isSome && pv.is_valid
    errors := errors
    warnings := if pv.is_sufficient then [] else [pv.message] }

/-- `TransactionStatus` enum from models/transaction.py. -/
inductive TransactionStatus where
  | pending
  | completed
  | cancelled
  | refunded
deriving DecidableEq, Repr

/-- `PaymentDetail` value object from models/transaction.py (without its
raising constructor; see `mk_payment_detail`). -/
structure PaymentDetail where
  amount_paid : Int
  payment_method : String
  change_amount : Int
  installments : List Int
deriving DecidableEq, Repr

/-- The `PaymentDetail` constructor: `__post_init__` raises `ValueError`
(embedded as `none`) on a negative paid amount or negative change. -/
def mk_payment_detail (amount_paid : Int) (payment_method : String)
    (change_amount : Int) (installments : List Int) : Option PaymentDetail :=
  if amount_paid < 0 then none
  else if change_amount < 0 then none
  else some { amount_paid := amount_paid, payment_method := payment_method,
              change_amount := change_amount, installments := installments }

/-- The `Transaction` record from models/transaction.py.  The mutable
status field is carried in the record; the creation/completion timestamps
are not modelled.  The customer is the cart's customer. -/
structure Transaction where
  transaction_id : String
  cart : ShoppingCart
  subtotal : Nat
  discounts : List DiscountDetail
  tax_amount : Int
  total_amount : Int
  payment : PaymentDetail
  status : TransactionStatus
deriving DecidableEq, Repr

/-- The `Transaction` constructor: `_validate_inputs` raises (embedded as
`none`) on a blank id, an empty cart, or a negative subtotal, tax or total
(the subtotal here is a `Nat`, so only the `Int` fields are checked); on
success the cart is finalized as a side effect and the status starts
Pending.  The source's blank test `not transaction_id or not
transaction_id.strip()` holds exactly when every character of the id is
whitespace. -/
def mk_transaction (transaction_id : String) (cart : ShoppingCart)
    (subtotal : Nat) (discounts : List DiscountDetail) (tax_amount : Int)
    (total_amount : Int) (payment : PaymentDetail) : Option Transaction :=
  if transaction_id.data.all (fun ch => ch.isWhitespace) then none
  else if cart_is_empty cart then none
  else if tax_amount < 0 then none
  else if total_amount < 0 then none
  else some
    { transaction_id := transaction_id
      cart := finalize_cart cart
      subtotal := subtotal
      discounts := discounts
      tax_amount := tax_amount
      total_amount := total_amount
      payment := payment
      status := .pending }

/-- `TransactionService._generate_transaction_id` produces
`"TXN_{timestamp}_{uuid8}"`; the timestamp and uuid are not modelled, only
the invariant that the id is a non-blank string starting with `TXN_`. -/
def generated_transaction_id : String := "TXN_id"

/-- `TransactionService.create_transaction`: validate (returning `None`
when invalid), recompute the totals, derive the paid amount and change
(from the installments when a non-empty list is given, else from the
scalar payment amount), build the `PaymentDetail` and the `Transaction`
(the builder's required-field checks hold by construction here), then
append the computed discounts to the built transaction.  Any `ValueError`
raised inside is caught by the surrounding `except`, which returns `None`:
those raises are the `none` branches of `mk_payment_detail` and
`mk_transaction`. -/
def create_transaction (mode : TaxMode) (day : Nat) (cart : ShoppingCart)
    (payment_amount : Int) (payment_method : String)
    (installments : List Int) : Option Transaction :=
  let validation := validate_transaction_data mode day cart payment_amount
  if validation.is_valid then
    let totals := calculate_transaction_totals mode day cart
    let step :=
      if installments.isEmpty then
        (payment_amount, max 0 (payment_amount - totals.total_amount),
         ([] : List Int))
      else
        let ir := process_installment_payment totals.total_amount installments
        (ir.total_paid, ir.change_amount, installments)
    match mk_payment_detail step.1 payment_method step.2.1 step.2.2 with
    | none => none
    | some payment =>
      match mk_transaction generated_transaction_id cart totals.subtotal []
          totals.total_tax totals.total_amount payment with
      | none => none
      | some txn => some { txn with discounts := txn.discounts ++ totals.discounts }
  else none

/-- `transaction.complete_transaction()`: Pending goes to Completed with
`True`; any other status is unchanged with `False`. -/
def complete_transaction (s : TransactionStatus) : Bool × TransactionStatus :=
  if s = .pending then (true, .completed) else (false, s)

/-- `transaction.cancel_transaction()`. -/
def cancel_transaction (s : TransactionStatus) : Bool × TransactionStatus :=
  if s = .pending then (true, .cancelled) else (false, s)

/-- `transaction.refund_transaction()`. -/
def refund_transaction (s : TransactionStatus) : Bool × TransactionStatus :=
  if s = .completed then (true, .refunded) else (false, s)

/-- One of the three transition calls on a transaction. -/
inductive TransitionCall where
  | complete
  | cancel
  | refund
deriving DecidableEq, Repr

/-- The status after one transition call. -/
def status_step (s : TransactionStatus) (a : TransitionCall) : TransactionStatus :=
  match a with
  | .complete => (complete_transaction s).2
  | .cancel => (cancel_transaction s).2
  | .refund => (refund_transaction s).2

/-- The status after a sequence of transition calls. -/
def status_run (s : TransactionStatus) (calls : List TransitionCall) :
    TransactionStatus :=
  calls.foldl status_step s

/-! ### Example fixtures used by witnesses and counterexamples -/

/-- A 30-year-old non-member customer. -/
def plain_customer : BaseCustomer := ⟨"Budi", 30, .regular, false, 0⟩

/-- A 65-year-old VIP customer. -/
def vip_customer : BaseCustomer := ⟨"Ani", 65, .vip, true, 12000⟩

/-- Three one-rupiah food items: the food category meets its bulk
threshold, yet 7 percent of 3 truncates to a zero discount amount. -/
def tiny_cart : ShoppingCart :=
  ⟨[⟨"permen", 1, "buah", .makanan, 3⟩], some plain_customer, false⟩

/-- One 50,000 food item for a plain customer: no discount applies and
the subtotal is below every tax threshold, so the total due is 50,000. -/
def scenario_d_cart : ShoppingCart :=
  ⟨[⟨"beras", 50000, "kg", .makanan, 1⟩], some plain_customer, false⟩

/-- A cart for the VIP customer that triggers senior, member, day-of-week
and both category discounts, plus standard tax. -/
def rich_cart : ShoppingCart :=
  ⟨[⟨"kopi", 100000, "buah", .makanan, 3⟩, ⟨"sabun", 200000, "buah", .kebutuhan, 2⟩],
   some vip_customer, false⟩

/-- A finalized cart. -/
def finalized_cart : ShoppingCart :=
  ⟨[⟨"beras", 50000, "kg", .makanan, 1⟩], some plain_customer, true⟩

/-- A zero-valued transaction used only as an `Option.getD` fallback in
witnesses. -/
def fallback_transaction : Transaction :=
  { transaction_id := "t", cart := finalized_cart, subtotal := 0,
    discounts := [], tax_amount := 0, total_amount := 0,
    payment := { amount_paid := 0, payment_method := "cash",
                 change_amount := 0, installments := [] },
    status := .pending }

/-- The transaction created for the scenario cart by a 30,000 cash
payment. -/
def c1_example_txn : Transaction :=
  (create_transaction .standard 2 scenario_d_cart 30000 "cash" []).getD
    fallback_transaction

/-- The transaction created for the scenario cart by three 20,000
installments. -/
def c10_example_txn : Transaction :=
  (create_transaction .standard 2 scenario_d_cart 30000 "cash"
    [20000, 20000, 20000]).getD fallback_transaction

/-! ### Arithmetic helpers: Python `int(x * rate)` as rational floor -/

/-- Truncating a non-negative `a * (n/d)` is natural floor division. -/
lemma natFloor_mul_div (a n d : ℕ) :
    ⌊(a : ℚ) * ((n : ℚ) / (d : ℚ))⌋₊ = a * n / d := by
  have h1 : (a : ℚ) * ((n : ℚ) / (d : ℚ)) = ((a * n : ℕ) : ℚ) / ((d : ℕ) : ℚ) := by
    push_cast
    ring
  rw [h1, Nat.floor_div_nat, Nat.floor_natCast]

/-- Truncating a non-negative `a * q` for a non-negative rational `q` is
natural floor division through the numerator and denominator of `q`. -/
lemma natFloor_mul_rat (a : ℕ) (q : ℚ) (hq : 0 ≤ q) :
    ⌊(a : ℚ) * q⌋₊ = a * q.num.toNat / q.den := by
  have hnum : ((q.num.toNat : ℕ) : ℚ) = ((q.num : ℤ) : ℚ) := by
    exact_mod_cast congrArg (fun z : ℤ => (z : ℚ))
      (Int.toNat_of_nonneg (Rat.num_nonneg.mpr hq))
  have h2 : ((q.num.toNat : ℕ) : ℚ) / ((q.den : ℕ) : ℚ) = q := by
    rw [hnum]
    exact Rat.num_div_den q
  have h := natFloor_mul_div a q.num.toNat q.den
  rw [h2] at h
  exact h

/-! ### Status-machine helpers -/

/-- A cancelled transaction is terminal under every transition call. -/
lemma status_step_cancelled (a : TransitionCall) :
    status_step .cancelled a = .cancelled := by
  cases a <;> decide

/-- A refunded transaction is terminal under every transition call. -/
lemma status_step_refunded (a : TransitionCall) :
    status_step .refunded a = .refunded := by
  cases a <;> decide

/-- No sequence of transition calls leaves the cancelled status. -/
lemma status_run_cancelled (calls : List TransitionCall) :
    status_run .cancelled calls = .cancelled := by
  induction calls with
  | nil => rfl
  | cons a rest ih =>
    simp only [status_run, List.foldl_cons, status_step_cancelled] at ih ⊢
    exact ih

/-- From completed or refunded, every sequence of transition calls stays
in the set consisting of completed and refunded. -/
lemma status_run_completed_refunded (s : TransactionStatus)
    (calls : List TransitionCall) (hs : s = .completed ∨ s = .refunded) :
    status_run s calls = .completed ∨ status_run s calls = .refunded := by
  induction calls generalizing s with
  | nil => simpa [status_run] using hs
  | cons a rest ih =>
    have h : status_step s a = .completed ∨ status_step s a = .refunded := by
      rcases hs with h | h <;> subst h <;> cases a <;> decide
    simp only [status_run, List.foldl_cons]
    exact ih _ h

/-- C3: `complete()` succeeds (returns true and moves to Completed) only
from Pending, `cancel()` only from Pending, `refund()` only from
Completed; every other call returns false leaving the status unchanged,
and no sequence of transition calls can reach Completed from Cancelled or
Cancelled from Completed. -/
theorem c3_status_machine (s : TransactionStatus) :
    ((complete_transaction s).1 = true ↔ s = .pending)
    ∧ ((cancel_transaction s).1 = true ↔ s = .pending)
    ∧ ((refund_transaction s).1 = true ↔ s = .completed)
    ∧ (complete_transaction .pending = (true, .completed)
        ∧ cancel_transaction .pending = (true, .cancelled)
        ∧ refund_transaction .completed = (true, .refunded))
    ∧ (s ≠ .pending → complete_transaction s = (false, s)
        ∧ cancel_transaction s = (false, s))
    ∧ (s ≠ .completed → refund_transaction s = (false, s))
    ∧ (∀ calls : List TransitionCall,
        status_run .cancelled calls ≠ .completed
        ∧ status_run .completed calls ≠ .cancelled) := by
  refine ⟨?_, ?_, ?_, ?_, ?_, ?_, ?_⟩
  · cases s <;> decide
  · cases s <;> decide
  · cases s <;> decide
  · decide
  · cases s <;> decide
  · cases s <;> decide
  · intro calls
    constructor
    · rw [status_run_cancelled]
      decide
    · rcases status_run_completed_refunded _ calls (Or.inl rfl) with h | h <;>
        rw [h] <;> decide

/-- Witness for C3 at concrete statuses and a concrete call sequence. -/
theorem c3_status_machine_witness :
    (TransactionStatus.completed ≠ .pending
      ∧ complete_transaction .completed = (false, .completed))
    ∧ (TransactionStatus.pending ≠ .completed
      ∧ refund_transaction .pending = (false, .pending))
    ∧ status_run .cancelled [.complete, .refund, .complete] ≠ .completed :=
  ⟨⟨by decide, ((c3_status_machine .completed).2.2.2.2.1 (by decide)).1⟩,
   ⟨by decide, (c3_status_machine .pending).2.2.2.2.2.1 (by decide)⟩,
   ((c3_status_machine .pending).2.2.2.2.2.2 [.complete, .refund, .complete]).1⟩

/-- C4: every mutating cart operation on a finalized cart reports failure
without raising and leaves the cart (in particular its item map)
unchanged. -/
theorem c4_finalized_cart_rejects_mutation (cart : ShoppingCart)
    (item : ProductItem) (name1 name2 : String) (q : Int)
    (h : cart.is_finalized = true) :
    add_item cart item = (false, cart)
    ∧ remove_item cart name1 = (false, cart)
    ∧ update_quantity cart name2 q = Except.ok (false, cart)
    ∧ clear_cart cart = (false, cart) := by
  simp [add_item, remove_item, update_quantity, clear_cart, h]

/-- Witness for C4 on a concrete finalized cart. -/
theorem c4_finalized_cart_rejects_mutation_witness :
    finalized_cart.is_finalized = true
    ∧ add_item finalized_cart ⟨"teh", 5, "botol", .minuman, 1⟩ = (false, finalized_cart)
    ∧ remove_item finalized_cart "beras" = (false, finalized_cart)
    ∧ update_quantity finalized_cart "beras" (-2) = Except.ok (false, finalized_cart)
    ∧ clear_cart finalized_cart = (false, finalized_cart) :=
  ⟨rfl,
   (c4_finalized_cart_rejects_mutation finalized_cart _ "beras" "beras" (-2) rfl).1,
   (c4_finalized_cart_rejects_mutation finalized_cart ⟨"teh", 5, "botol", .minuman, 1⟩
      "beras" "beras" (-2) rfl).2.1,
   (c4_finalized_cart_rejects_mutation finalized_cart ⟨"teh", 5, "botol", .minuman, 1⟩
      "beras" "beras" (-2) rfl).2.2.1,
   (c4_finalized_cart_rejects_mutation finalized_cart ⟨"teh", 5, "botol", .minuman, 1⟩
      "beras" "beras" (-2) rfl).2.2.2⟩

/-! ### Combined tax mode -/

/-- The standard tax amount is never negative. -/
lemma standard_tax_amount_nonneg (sad : Int) :
    0 ≤ (standard_calculate_tax sad).amount := by
  unfold standard_calculate_tax
  split
  · exact Int.natCast_nonneg _
  · exact le_refl 0

/-- The luxury tax amount is never negative. -/
lemma luxury_tax_amount_nonneg (sad : Int) :
    0 ≤ (luxury_calculate_tax sad).amount := by
  unfold luxury_calculate_tax
  split
  · split
    · exact Int.natCast_nonneg _
    · split
      · exact Int.natCast_nonneg _
      · exact Int.natCast_nonneg _
  · exact le_refl 0

/-- C5: in combined mode the tax service computes both the standard and
the luxury tax and returns the empty list when both amounts are zero,
otherwise the singleton of whichever amount is strictly larger, keeping
the standard result on ties. -/
theorem c5_combined_tax_mode (subtotal_after_discount : Int)
    (cart : ShoppingCart) :
    tax_service_calculate_tax .combined subtotal_after_discount cart =
      (if (standard_calculate_tax subtotal_after_discount).amount = 0
          ∧ (luxury_calculate_tax subtotal_after_discount).amount = 0 then
        ([] : List TaxDetail)
       else if (luxury_calculate_tax subtotal_after_discount).amount ≤
          (standard_calculate_tax subtotal_after_discount).amount then
        [standard_calculate_tax subtotal_after_discount]
       else [luxury_calculate_tax subtotal_after_discount]) := by
  have hs := standard_tax_amount_nonneg subtotal_after_discount
  have hl := luxury_tax_amount_nonneg subtotal_after_discount
  simp only [tax_service_calculate_tax]
  split_ifs with h1 h2 h3 h4 h5 <;> first | rfl | (exfalso; omega)

/-- C7: `validate_payment` reports invalid exactly on an unsupported
method or a negative amount; on every valid input it reports sufficiency
(change equals the overpayment when the payment covers the total, the
outstanding amount equals the shortfall otherwise), and an insufficient
payment is still a valid result. -/
theorem c7_validate_payment_spec (total_amount payment_amount : Int)
    (method : String) :
    ((validate_payment total_amount payment_amount method).is_valid = false
      ↔ (method ∉ supported_methods ∨ payment_amount < 0))
    ∧ (method ∈ supported_methods → 0 ≤ payment_amount →
        (validate_payment total_amount payment_amount method).is_valid = true
        ∧ ((validate_payment total_amount payment_amount method).is_sufficient = true
            ↔ total_amount ≤ payment_amount)
        ∧ (total_amount ≤ payment_amount →
            (validate_payment total_amount payment_amount method).change_amount
              = payment_amount - total_amount
            ∧ (validate_payment total_amount payment_amount method).outstanding_amount = 0)
        ∧ (payment_amount < total_amount →
            (validate_payment total_amount payment_amount method).outstanding_amount
              = total_amount - payment_amount
            ∧ (validate_payment total_amount payment_amount method).change_amount = 0
            ∧ (validate_payment total_amount payment_amount method).is_sufficient = false)) := by
  by_cases hm : method ∈ supported_methods
  · by_cases hp : payment_amount < 0
    · have he : validate_payment total_amount payment_amount method =
          { is_valid := false, is_sufficient := false, change_amount := 0,
            outstanding_amount := 0,
            message := "Jumlah pembayaran tidak boleh negatif" } := by
        unfold validate_payment
        rw [if_neg (not_not_intro hm), if_pos hp]
      rw [he]
      exact ⟨⟨fun _ => Or.inr hp, fun _ => rfl⟩, fun _ hp2 => absurd hp (by omega)⟩
    · by_cases hle : total_amount ≤ payment_amount
      · have he : validate_payment total_amount payment_amount method =
            { is_valid := true, is_sufficient := true,
              change_amount := payment_amount - total_amount,
              outstanding_amount := 0, message := "Pembayaran berhasil" } := by
          unfold validate_payment
          rw [if_neg (not_not_intro hm), if_neg hp, if_pos hle]
        rw [he]
        refine ⟨⟨fun hfalse => by simp at hfalse, fun hor => ?_⟩,
          fun _ _ => ⟨rfl, by simp [hle], fun _ => ⟨rfl, rfl⟩,
            fun hlt => absurd hle (by omega)⟩⟩
        rcases hor with h | h
        · exact absurd hm h
        · exact absurd h hp
      · have he : validate_payment total_amount payment_amount method =
            { is_valid := true, is_sufficient := false, change_amount := 0,
              outstanding_amount := total_amount - payment_amount,
              message := "Kurang bayar Rp" ++ toString (total_amount - payment_amount) } := by
          unfold validate_payment
          rw [if_neg (not_not_intro hm), if_neg hp, if_neg hle]
        rw [he]
        refine ⟨⟨fun hfalse => by simp at hfalse, fun hor => ?_⟩,
          fun _ _ => ⟨rfl, by simp [hle], fun hle2 => absurd hle2 hle,
            fun _ => ⟨rfl, rfl, rfl⟩⟩⟩
        rcases hor with h | h
        · exact absurd hm h
        · exact absurd h hp
  · have he : validate_payment total_amount payment_amount method =
        { is_valid := false, is_sufficient := false, change_amount := 0,
          outstanding_amount := 0,
          message := "Metode pembayaran " ++ method ++ " tidak didukung" } := by
      unfold validate_payment
      rw [if_pos hm]
    rw [he]
    exact ⟨⟨fun _ => Or.inl hm, fun _ => rfl⟩, fun hm2 _ => absurd hm2 hm⟩

/-- Witness for C7 at a concrete valid but insufficient payment. -/
theorem c7_validate_payment_spec_witness :
    "cash" ∈ supported_methods
    ∧ (0 : Int) ≤ 30000
    ∧ (validate_payment 50000 30000 "cash").is_valid = true
    ∧ (validate_payment 50000 30000 "cash").outstanding_amount = 20000
    ∧ (validate_payment 50000 30000 "cash").is_sufficient = false :=
  have h := (c7_validate_payment_spec 50000 30000 "cash").2 (by decide) (by decide)
  ⟨by decide, by decide, h.1, (h.2.2.2 (by decide)).1, (h.2.2.2 (by decide)).2.2⟩

/-! ### Discount list structure (claims C2 and C6) -/

/-- Membership in a conditional singleton yields the condition and the
equality. -/
lemma mem_if_singleton {c : Prop} [Decidable c] {d x : DiscountDetail}
    (h : d ∈ (if c then [x] else [])) : c ∧ d = x := by
  split at h
  · exact ⟨by assumption, List.mem_singleton.1 h⟩
  · exact absurd h (List.not_mem_nil d)

/-- Both components of a true boolean conjunction. -/
lemma bool_and_split {a b : Bool} (h : (a && b) = true) :
    a = true ∧ b = true := by
  simp only [Bool.and_eq_true] at h
  exact h

/-- A boolean conjunction from its two components. -/
lemma bool_and_join {a b : Bool} (h1 : a = true) (h2 : b = true) :
    (a && b) = true := by
  simp [h1, h2]

/-- C2 as stated is false: for three one-rupiah food items the category
strategy qualifies (quantity 3) but its 7 percent discount truncates to
amount 0, and that zero-amount detail is returned by
`calculate_all_discounts`. -/
theorem c2_zero_amount_counterexample :
    ¬ (∀ d ∈ calculate_all_discounts tiny_cart (some plain_customer) 2,
        0 < d.amount) := by
  decide

/-- C2 amended: every discount returned by `calculate_all_discounts` has
a positive amount or is one of the per-category results (which are
appended without the positive-amount filter). -/
theorem c2_no_zero_amount_amended (cart : ShoppingCart)
    (customer : Option BaseCustomer) (day : Nat) (d : DiscountDetail)
    (hd : d ∈ calculate_all_discounts cart customer day) :
    0 < d.amount ∨ d ∈ category_calculate_discount cart := by
  unfold calculate_all_discounts at hd
  rcases List.mem_append.1 hd with h | h4
  · rcases List.mem_append.1 h with h | h3
    · rcases List.mem_append.1 h with h1 | h2
      · obtain ⟨hc, hdx⟩ := mem_if_singleton h1
        subst hdx
        exact Or.inl (of_decide_eq_true (bool_and_split hc).2)
      · obtain ⟨hc, hdx⟩ := mem_if_singleton h2
        subst hdx
        exact Or.inl (of_decide_eq_true (bool_and_split hc).2)
    · obtain ⟨hc, hdx⟩ := mem_if_singleton h3
      subst hdx
      exact Or.inl (of_decide_eq_true (bool_and_split hc).2)
  · split at h4
    · exact Or.inr h4
    · exact absurd h4 (List.not_mem_nil d)

/-- Witness for the amended C2 on a concrete discount of the rich cart. -/
theorem c2_no_zero_amount_amended_witness :
    (senior_calculate_discount rich_cart (some vip_customer)) ∈
        calculate_all_discounts rich_cart (some vip_customer) 0
    ∧ (0 < (senior_calculate_discount rich_cart (some vip_customer)).amount
       ∨ (senior_calculate_discount rich_cart (some vip_customer)) ∈
           category_calculate_discount rich_cart) :=
  have h : (senior_calculate_discount rich_cart (some vip_customer)) ∈
      calculate_all_discounts rich_cart (some vip_customer) 0 := by
    have hguard : (senior_is_applicable (some vip_customer) &&
        decide (0 < (senior_calculate_discount rich_cart (some vip_customer)).amount))
          = true := by decide
    unfold calculate_all_discounts
    apply List.mem_append_left
    apply List.mem_append_left
    apply List.mem_append_left
    rw [if_pos hguard]
    exact List.mem_singleton.2 rfl
  ⟨h, c2_no_zero_amount_amended rich_cart (some vip_customer) 0 _ h⟩

/-- If no cart item has a category, that category's total quantity is 0. -/
lemma quantity_zero_of_no_item (l : List ProductItem) (c : KategoriBarang)
    (h : l.any (fun i => i.kategori = c) = false) :
    ((l.filter (fun i => i.kategori = c)).map (·.jumlah)).sum = 0 := by
  induction l with
  | nil => rfl
  | cons i rest ih =>
    rw [List.any_cons, Bool.or_eq_false_iff] at h
    rw [List.filter_cons, if_neg (by simpa using h.1)]
    exact ih h.2

/-- The category guard of the bulk strategy (present in the cart and at or
above the threshold) is equivalent to the threshold condition alone,
because a category meeting its positive threshold is necessarily present. -/
lemma category_guard_iff (cart : ShoppingCart) (c : KategoriBarang) :
    ((has_category cart c &&
        decide (category_min_items c ≤ category_quantity cart c)) = true
      ↔ category_min_items c ≤ category_quantity cart c) := by
  constructor
  · intro h
    exact of_decide_eq_true (bool_and_split h).2
  · intro h
    refine bool_and_join ?_ (decide_eq_true h)
    by_contra hfalse
    have hf : has_category cart c = false := by
      revert hfalse
      cases has_category cart c <;> simp
    have h0 : category_quantity cart c = 0 :=
      quantity_zero_of_no_item cart.items c hf
    rw [h0] at h
    cases c <;> simp [category_min_items] at h

/-- Rewriting a guarded `filterMap` as `filter` then `map` when the guard
is equivalent to the filtering condition. -/
lemma filterMap_if_eq_filter_map (l : List KategoriBarang)
    (p q : KategoriBarang → Prop) [DecidablePred p] [DecidablePred q]
    (f : KategoriBarang → DiscountDetail) (hpq : ∀ c, p c ↔ q c) :
    (l.filterMap (fun c => if p c then some (f c) else none)) =
      (l.filter (fun c => decide (q c))).map f := by
  induction l with
  | nil => rfl
  | cons a rest ih =>
    rw [List.filterMap_cons, List.filter_cons]
    by_cases h : p a
    · rw [if_pos h, if_pos (by simpa using (hpq a).1 h), List.map_cons, ih]
    · rw [if_neg h, if_neg (by simpa using fun hq => h ((hpq a).2 hq)), ih]

/-- The per-category bulk discounts are exactly one detail per category
meeting its threshold, in rule order. -/
lemma category_calculate_discount_eq (cart : ShoppingCart) :
    category_calculate_discount cart =
      (category_rules_order.filter
        (fun c => decide (category_min_items c ≤ category_quantity cart c))).map
        (category_detail cart) := by
  unfold category_calculate_discount
  exact filterMap_if_eq_filter_map category_rules_order _ _ _
    (fun c => category_guard_iff cart c)

/-- The names of the per-category details distinguish the categories. -/
lemma category_detail_name_inj (cart : ShoppingCart) (c1 c2 : KategoriBarang)
    (h : (category_detail cart c1).name = (category_detail cart c2).name) :
    c1 = c2 := by
  cases c1 <;> cases c2 <;>
    first
      | rfl
      | exact absurd h (by simp [category_detail, category_title])

/-- C6: the bulk strategy yields exactly one result per category whose
cart quantity meets its threshold (3 for food and drink, 2 for
household), in rule order; a category appears in the result list (by its
discount name) if and only if it meets its threshold, so a
below-threshold category is absent rather than present with amount 0. -/
theorem c6_category_bulk_iff_threshold (cart : ShoppingCart) :
    category_calculate_discount cart =
      (category_rules_order.filter
        (fun c => decide (category_min_items c ≤ category_quantity cart c))).map
        (category_detail cart)
    ∧ ∀ c : KategoriBarang,
        ((category_detail cart c).name ∈
            (category_calculate_discount cart).map (·.name)
          ↔ category_min_items c ≤ category_quantity cart c) := by
  have heq := category_calculate_discount_eq cart
  refine ⟨heq, fun c => ?_⟩
  rw [heq, List.map_map, List.mem_map]
  constructor
  · rintro ⟨c2, hc2, hname⟩
    rw [List.mem_filter] at hc2
    have hcc : c2 = c := category_detail_name_inj cart c2 c hname
    subst hcc
    exact of_decide_eq_true hc2.2
  · intro h
    exact ⟨c, List.mem_filter.2 ⟨by cases c <;> decide, decide_eq_true h⟩, rfl⟩

/-! ### Orchestrator validation (claim C8) -/

/-- For the default method `cash`, payment validity is exactly
non-negativity of the payment amount. -/
lemma validate_payment_cash_is_valid (total pay : Int) :
    (validate_payment total pay "cash").is_valid = decide (0 ≤ pay) := by
  have hm : ("cash" : String) ∈ supported_methods := by decide
  unfold validate_payment
  rw [if_neg (not_not_intro hm)]
  by_cases hp : pay < 0
  · rw [if_pos hp]
    show false = decide (0 ≤ pay)
    rw [eq_comm, decide_eq_false_iff_not]
    omega
  · rw [if_neg hp]
    by_cases hle : total ≤ pay
    · rw [if_pos hle]
      show true = decide (0 ≤ pay)
      rw [eq_comm, decide_eq_true_eq]
      omega
    · rw [if_neg hle]
      show true = decide (0 ≤ pay)
      rw [eq_comm, decide_eq_true_eq]
      omega

/-- For the default method `cash`, sufficiency is exactly a non-negative
payment covering the total. -/
lemma validate_payment_cash_is_sufficient (total pay : Int) :
    (validate_payment total pay "cash").is_sufficient
      = decide (0 ≤ pay ∧ total ≤ pay) := by
  have hm : ("cash" : String) ∈ supported_methods := by decide
  unfold validate_payment
  rw [if_neg (not_not_intro hm)]
  by_cases hp : pay < 0
  · rw [if_pos hp]
    show false = decide (0 ≤ pay ∧ total ≤ pay)
    rw [eq_comm, decide_eq_false_iff_not]
    omega
  · rw [if_neg hp]
    by_cases hle : total ≤ pay
    · rw [if_pos hle]
      show true = decide (0 ≤ pay ∧ total ≤ pay)
      rw [eq_comm, decide_eq_true_eq]
      omega
    · rw [if_neg hle]
      show false = decide (0 ≤ pay ∧ total ≤ pay)
      rw [eq_comm, decide_eq_false_iff_not]
      omega

/-- The error list built by `validate_transaction_data`, spelled out. -/
lemma validate_transaction_data_errors (mode : TaxMode) (day : Nat)
    (cart : ShoppingCart) (payment_amount : Int) :
    (validate_transaction_data mode day cart payment_amount).errors =
      (if cart_is_empty cart then ["Keranjang belanja kosong"] else []) ++
      (if cart.customer.isNone then ["Customer tidak valid"] else []) ++
      (if (validate_payment (calculate_transaction_totals mode day cart).total_amount
            payment_amount "cash").is_valid then []
       else [(validate_payment (calculate_transaction_totals mode day cart).total_amount
            payment_amount "cash").message]) := rfl

/-- The validity flag of `validate_transaction_data`, spelled out. -/
lemma validate_transaction_data_is_valid (mode : TaxMode) (day : Nat)
    (cart : ShoppingCart) (payment_amount : Int) :
    (validate_transaction_data mode day cart payment_amount).is_valid =
      (!cart_is_empty cart && cart.customer.isSome &&
        (validate_payment (calculate_transaction_totals mode day cart).total_amount
          payment_amount "cash").is_valid) := rfl

/-- The warning list of `validate_transaction_data`, spelled out. -/
lemma validate_transaction_data_warnings (mode : TaxMode) (day : Nat)
    (cart : ShoppingCart) (payment_amount : Int) :
    (validate_transaction_data mode day cart payment_amount).warnings =
      (if (validate_payment (calculate_transaction_totals mode day cart).total_amount
            payment_amount "cash").is_sufficient then []
       else [(validate_payment (calculate_transaction_totals mode day cart).total_amount
            payment_amount "cash").message]) := rfl

/-- C8 as stated is false: a negative payment also produces a validation
error (through the folded-in payment validation), even though the cart is
non-empty and has a customer. -/
theorem c8_error_source_counterexample :
    (validate_transaction_data .standard 2 scenario_d_cart (-1)).errors ≠ []
    ∧ scenario_d_cart.items ≠ [] ∧ scenario_d_cart.customer ≠ none := by
  refine ⟨by decide, by decide, by decide⟩

/-- C8 amended: orchestrator validation reports an error exactly when the
cart is empty, the customer is missing, or the payment amount is negative
(the folded-in payment check, run with method cash); a merely insufficient
payment keeps validation successful and is recorded as a warning; for the
scenario cart the total due is 50,000 and a single 30,000 cash payment
still creates a Pending transaction with amount paid 30,000 and change 0. -/
theorem c8_orchestrator_validation_amended (mode : TaxMode) (day : Nat)
    (cart : ShoppingCart) (payment_amount : Int) :
    (((validate_transaction_data mode day cart payment_amount).errors ≠ [])
      ↔ (cart.items = [] ∨ cart.customer = none ∨ payment_amount < 0))
    ∧ ((validate_transaction_data mode day cart payment_amount).is_valid = true
      ↔ (validate_transaction_data mode day cart payment_amount).errors = [])
    ∧ (cart.items ≠ [] → cart.customer ≠ none → 0 ≤ payment_amount →
        payment_amount < (calculate_transaction_totals mode day cart).total_amount →
        (validate_transaction_data mode day cart payment_amount).is_valid = true
        ∧ (validate_transaction_data mode day cart payment_amount).warnings ≠ [])
    ∧ (calculate_transaction_totals .standard 2 scenario_d_cart).total_amount = 50000
    ∧ ((create_transaction .standard 2 scenario_d_cart 30000 "cash" []).map
        (fun t => (t.status, t.payment.amount_paid, t.payment.change_amount)))
      = some (.pending, 30000, 0) := by
  have hval := validate_payment_cash_is_valid
    (calculate_transaction_totals mode day cart).total_amount payment_amount
  refine ⟨?_, ?_, ?_, by decide, by decide⟩
  · rw [validate_transaction_data_errors]
    constructor
    · intro hne
      by_contra hno
      push_neg at hno
      obtain ⟨h1, h2, h3⟩ := hno
      apply hne
      have he : cart_is_empty cart = false := by
        unfold cart_is_empty
        cases hl : cart.items with
        | nil => exact absurd hl h1
        | cons a l => rfl
      have hn : cart.customer.isNone = false := by
        cases hc : cart.customer with
        | none => exact absurd hc h2
        | some c => rfl
      have hv : (validate_payment
          (calculate_transaction_totals mode day cart).total_amount
          payment_amount "cash").is_valid = true := by
        rw [hval, decide_eq_true_eq]
        omega
      simp [he, hn, hv]
    · intro hor
      rcases hor with h1 | h2 | h3
      · have he : cart_is_empty cart = true := by simp [cart_is_empty, h1]
        simp [he]
      · have hn : cart.customer.isNone = true := by simp [h2]
        simp [hn, List.append_eq_nil]
      · have hv : (validate_payment
            (calculate_transaction_totals mode day cart).total_amount
            payment_amount "cash").is_valid = false := by
          rw [hval]
          exact decide_eq_false (by omega)
        simp [hv, List.append_eq_nil]
  · rw [validate_transaction_data_is_valid, validate_transaction_data_errors]
    constructor
    · intro hv
      obtain ⟨hv12, hv3⟩ := bool_and_split hv
      obtain ⟨hv1, hv2⟩ := bool_and_split hv12
      have he : cart_is_empty cart = false := by
        cases h : cart_is_empty cart
        · rfl
        · rw [h] at hv1
          exact absurd hv1 (by decide)
      have hn : cart.customer.isNone = false := by
        cases h : cart.customer with
        | none => simp [h] at hv2
        | some c => simp [h]
      simp [he, hn, hv3]
    · intro herr
      rw [List.append_eq_nil, List.append_eq_nil] at herr
      obtain ⟨⟨hA, hB⟩, hC⟩ := herr
      have he : cart_is_empty cart = false := by
        cases h : cart_is_empty cart
        · rfl
        · rw [h] at hA
          simp at hA
      have hn : cart.customer.isNone = false := by
        cases h : cart.customer.isNone
        · rfl
        · rw [h] at hB
          simp at hB
      have hv : (validate_payment
          (calculate_transaction_totals mode day cart).total_amount
          payment_amount "cash").is_valid = true := by
        cases h : (validate_payment
            (calculate_transaction_totals mode day cart).total_amount
            payment_amount "cash").is_valid
        · rw [h] at hC
          simp at hC
        · rfl
      have hs : cart.customer.isSome = true := by
        cases h : cart.customer with
        | none => simp [h] at hn
        | some c => simp [h]
      simp [he, hs, hv]
  · intro h1 h2 h3 h4
    have he : cart_is_empty cart = false := by
      unfold cart_is_empty
      cases hl : cart.items with
      | nil => exact absurd hl h1
      | cons a l => rfl
    have hs : cart.customer.isSome = true := by
      cases hc : cart.customer with
      | none => exact absurd hc h2
      | some c => rfl
    have hv : (validate_payment
        (calculate_transaction_totals mode day cart).total_amount
        payment_amount "cash").is_valid = true := by
      rw [hval, decide_eq_true_eq]
      omega
    have hsf : (validate_payment
        (calculate_transaction_totals mode day cart).total_amount
        payment_amount "cash").is_sufficient = false := by
      rw [validate_payment_cash_is_sufficient]
      exact decide_eq_false (by omega)
    constructor
    · rw [validate_transaction_data_is_valid]
      simp [he, hs, hv]
    · rw [validate_transaction_data_warnings]
      simp [hsf]

/-- Witness for the amended C8 at the scenario cart with an insufficient
30,000 cash payment against the 50,000 total. -/
theorem c8_orchestrator_validation_amended_witness :
    scenario_d_cart.items ≠ [] ∧ scenario_d_cart.customer ≠ none
    ∧ (0 : Int) ≤ 30000
    ∧ (30000 : Int) < (calculate_transaction_totals .standard 2 scenario_d_cart).total_amount
    ∧ (validate_transaction_data .standard 2 scenario_d_cart 30000).is_valid = true
    ∧ (validate_transaction_data .standard 2 scenario_d_cart 30000).warnings ≠ [] :=
  have h := (c8_orchestrator_validation_amended .standard 2 scenario_d_cart 30000).2.2.1
    (by decide) (by decide) (by decide) (by decide)
  ⟨by decide, by decide, by decide, by decide, h.1, h.2⟩

/-! ### Discount amounts as rational floors (claim C9) -/

/-- The member percentage is between 0 and 1 for every customer. -/
lemma member_percentage_bounds (c : BaseCustomer) :
    0 ≤ member_percentage c ∧ member_percentage c ≤ 1 := by
  unfold member_percentage tier_rate premium_tier
  cases c.kind <;> split_ifs <;> norm_num

/-- The day percentage is between 0 and 1 for every day. -/
lemma day_percentage_bounds (day : Nat) :
    0 ≤ day_percentage day ∧ day_percentage day ≤ 1 := by
  unfold day_percentage
  split_ifs <;> norm_num

/-- C9: each applicable discount strategy computes its amount as the floor
of its base times its recorded rate, the rate lies in the unit interval
(base is the cart subtotal for Senior, Member and DayOfWeek, and the
category amount for CategoryBulk), and the total discount is the sum of
the returned discount amounts. -/
theorem c9_discount_amount_floor (cart : ShoppingCart)
    (customer : Option BaseCustomer) (c : BaseCustomer) (day : Nat)
    (k : KategoriBarang) :
    (senior_is_applicable customer = true →
      (senior_calculate_discount cart customer).amount
        = ⌊(calculate_subtotal cart : ℚ) *
            (senior_calculate_discount cart customer).percentage⌋₊
      ∧ 0 ≤ (senior_calculate_discount cart customer).percentage
      ∧ (senior_calculate_discount cart customer).percentage ≤ 1)
    ∧ (member_is_applicable (some c) = true →
      (member_calculate_discount cart (some c)).amount
        = ⌊(calculate_subtotal cart : ℚ) *
            (member_calculate_discount cart (some c)).percentage⌋₊
      ∧ 0 ≤ (member_calculate_discount cart (some c)).percentage
      ∧ (member_calculate_discount cart (some c)).percentage ≤ 1)
    ∧ (day_is_applicable day = true →
      (day_calculate_discount cart day).amount
        = ⌊(calculate_subtotal cart : ℚ) *
            (day_calculate_discount cart day).percentage⌋₊
      ∧ 0 ≤ (day_calculate_discount cart day).percentage
      ∧ (day_calculate_discount cart day).percentage ≤ 1)
    ∧ ((category_detail cart k).amount
        = ⌊(category_amount cart k : ℚ) * (category_detail cart k).percentage⌋₊
      ∧ 0 ≤ (category_detail cart k).percentage
      ∧ (category_detail cart k).percentage ≤ 1)
    ∧ get_total_discount_amount cart customer day
        = ((calculate_all_discounts cart customer day).map (·.amount)).sum := by
  refine ⟨?_, ?_, ?_, ?_, rfl⟩
  · intro h
    unfold senior_calculate_discount
    rw [if_pos h]
    dsimp only
    refine ⟨?_, by norm_num, by norm_num⟩
    rw [show ((10 : ℚ)/100) = (((10 : ℕ) : ℚ) / ((100 : ℕ) : ℚ)) by norm_num,
      natFloor_mul_div]
  · intro h
    unfold member_calculate_discount
    rw [if_pos h]
    dsimp only
    obtain ⟨h0, h1⟩ := member_percentage_bounds c
    exact ⟨(natFloor_mul_rat _ _ h0).symm, h0, h1⟩
  · intro h
    unfold day_calculate_discount
    rw [if_pos h]
    dsimp only
    obtain ⟨h0, h1⟩ := day_percentage_bounds day
    exact ⟨(natFloor_mul_rat _ _ h0).symm, h0, h1⟩
  · unfold category_detail
    dsimp only
    refine ⟨?_, by norm_num, by norm_num⟩
    rw [show ((7 : ℚ)/100) = (((7 : ℕ) : ℚ) / ((100 : ℕ) : ℚ)) by norm_num,
      natFloor_mul_div]

/-- Witness for C9 with the rich cart, the VIP customer, Monday, and the
food category. -/
theorem c9_discount_amount_floor_witness :
    senior_is_applicable (some vip_customer) = true
    ∧ (senior_calculate_discount rich_cart (some vip_customer)).amount
        = ⌊(calculate_subtotal rich_cart : ℚ) *
            (senior_calculate_discount rich_cart (some vip_customer)).percentage⌋₊
    ∧ member_is_applicable (some vip_customer) = true
    ∧ (member_calculate_discount rich_cart (some vip_customer)).amount
        = ⌊(calculate_subtotal rich_cart : ℚ) *
            (member_calculate_discount rich_cart (some vip_customer)).percentage⌋₊
    ∧ day_is_applicable 0 = true
    ∧ (day_calculate_discount rich_cart 0).amount
        = ⌊(calculate_subtotal rich_cart : ℚ) *
            (day_calculate_discount rich_cart 0).percentage⌋₊ :=
  have h := c9_discount_amount_floor rich_cart (some vip_customer) vip_customer 0 .makanan
  ⟨by decide, (h.1 (by decide)).1, by decide, (h.2.1 (by decide)).1,
   by decide, (h.2.2.1 (by decide)).1⟩

/-! ### Created transactions (claims C1 and C10) -/

/-- Field values of every transaction successfully produced by
`create_transaction`: the monetary fields come from the recomputed totals
breakdown, the status starts Pending, and the recorded payment comes from
the installment list when one is given, else from the scalar payment
amount. -/
lemma create_transaction_fields (mode : TaxMode) (day : Nat)
    (cart : ShoppingCart) (payment_amount : Int) (payment_method : String)
    (installments : List Int) (txn : Transaction)
    (h : create_transaction mode day cart payment_amount payment_method
        installments = some txn) :
    txn.subtotal = (calculate_transaction_totals mode day cart).subtotal
    ∧ txn.discounts = (calculate_transaction_totals mode day cart).discounts
    ∧ txn.tax_amount = (calculate_transaction_totals mode day cart).total_tax
    ∧ txn.total_amount = (calculate_transaction_totals mode day cart).total_amount
    ∧ txn.status = .pending
    ∧ txn.payment.amount_paid =
        (if installments.isEmpty then payment_amount else installments.sum)
    ∧ txn.payment.change_amount =
        (if installments.isEmpty
          then max 0 (payment_amount -
            (calculate_transaction_totals mode day cart).total_amount)
          else max 0 (installments.sum -
            (calculate_transaction_totals mode day cart).total_amount))
    ∧ txn.payment.installments = installments := by
  simp only [create_transaction] at h
  split at h
  case isTrue hv =>
    by_cases hi : installments.isEmpty = true
    · rw [if_pos hi] at h
      split at h
      next hpd => exact absurd h (by simp)
      next payment hpd =>
        split at h
        next hmt => exact absurd h (by simp)
        next txn0 hmt =>
          rw [Option.some.injEq] at h
          subst h
          unfold mk_payment_detail at hpd
          split at hpd
          · exact absurd hpd (by simp)
          split at hpd
          · exact absurd hpd (by simp)
          rw [Option.some.injEq] at hpd
          subst hpd
          unfold mk_transaction at hmt
          split at hmt
          · exact absurd hmt (by simp)
          split at hmt
          · exact absurd hmt (by simp)
          split at hmt
          · exact absurd hmt (by simp)
          split at hmt
          · exact absurd hmt (by simp)
          rw [Option.some.injEq] at hmt
          subst hmt
          have hnil : installments = [] := by
            cases installments with
            | nil => rfl
            | cons a l => simp at hi
          refine ⟨rfl, rfl, rfl, rfl, rfl, ?_, ?_, ?_⟩
          · rw [if_pos hi]
          · rw [if_pos hi]
          · rw [hnil]
    · rw [if_neg hi] at h
      split at h
      next hpd => exact absurd h (by simp)
      next payment hpd =>
        split at h
        next hmt => exact absurd h (by simp)
        next txn0 hmt =>
          rw [Option.some.injEq] at h
          subst h
          unfold mk_payment_detail at hpd
          split at hpd
          · exact absurd hpd (by simp)
          split at hpd
          · exact absurd hpd (by simp)
          rw [Option.some.injEq] at hpd
          subst hpd
          unfold mk_transaction at hmt
          split at hmt
          · exact absurd hmt (by simp)
          split at hmt
          · exact absurd hmt (by simp)
          split at hmt
          · exact absurd hmt (by simp)
          split at hmt
          · exact absurd hmt (by simp)
          rw [Option.some.injEq] at hmt
          subst hmt
          refine ⟨rfl, rfl, rfl, rfl, rfl, ?_, ?_, rfl⟩
          · rw [if_neg hi]
            rfl
          · rw [if_neg hi]
            rfl
  case isFalse hv => exact absurd h (by simp)

/-- C1: every transaction produced by `create_transaction` satisfies
`total_amount = subtotal - total discount + tax_amount`, and its tax
amount is exactly the tax the tax service computes on the post-discount
subtotal (the subtotal minus the summed discounts), not on the raw
subtotal. -/
theorem c1_transaction_total_invariant (mode : TaxMode) (day : Nat)
    (cart : ShoppingCart) (payment_amount : Int) (payment_method : String)
    (installments : List Int) (txn : Transaction)
    (h : create_transaction mode day cart payment_amount payment_method
        installments = some txn) :
    txn.total_amount = (txn.subtotal : Int)
        - (((txn.discounts.map (·.amount)).sum : Nat) : Int) + txn.tax_amount
    ∧ txn.tax_amount =
        ((tax_service_calculate_tax mode
            ((txn.subtotal : Int) - (((txn.discounts.map (·.amount)).sum : Nat) : Int))
            cart).map (·.amount)).sum := by
  obtain ⟨hs, hd, ht, hta, -, -, -, -⟩ :=
    create_transaction_fields mode day cart payment_amount payment_method
      installments txn h
  rw [hs, hd, ht, hta]
  exact ⟨rfl, rfl⟩

/-- Witness for C1 on the concrete scenario transaction. -/
theorem c1_transaction_total_invariant_witness :
    create_transaction .standard 2 scenario_d_cart 30000 "cash" []
      = some c1_example_txn
    ∧ c1_example_txn.total_amount = (c1_example_txn.subtotal : Int)
        - (((c1_example_txn.discounts.map (·.amount)).sum : Nat) : Int)
        + c1_example_txn.tax_amount :=
  have h : create_transaction .standard 2 scenario_d_cart 30000 "cash" []
      = some c1_example_txn := by rfl
  ⟨h, (c1_transaction_total_invariant .standard 2 scenario_d_cart 30000 "cash" []
    c1_example_txn h).1⟩

/-- C10: when a non-empty installment list is supplied, the recorded
payment ignores the scalar payment amount: the amount paid is the sum of
the installments and the change is `max 0` of that sum minus the computed
total; with no installments the amount paid is the scalar payment amount
and the change is `max 0` of it minus the computed total. -/
theorem c10_installment_payment_overrides (mode : TaxMode) (day : Nat)
    (cart : ShoppingCart) (payment_amount : Int) (payment_method : String)
    (installments : List Int) (txn : Transaction)
    (h : create_transaction mode day cart payment_amount payment_method
        installments = some txn) :
    (installments ≠ [] →
      txn.payment.amount_paid = installments.sum
      ∧ txn.payment.change_amount = max 0 (installments.sum - txn.total_amount)
      ∧ txn.payment.installments = installments)
    ∧ (installments = [] →
      txn.payment.amount_paid = payment_amount
      ∧ txn.payment.change_amount = max 0 (payment_amount - txn.total_amount)
      ∧ txn.payment.installments = []) := by
  obtain ⟨-, -, -, hta, -, hap, hch, hin⟩ :=
    create_transaction_fields mode day cart payment_amount payment_method
      installments txn h
  constructor
  · intro hne
    have hi : installments.isEmpty = false := by
      cases installments with
      | nil => exact absurd rfl hne
      | cons a l => rfl
    rw [hap, hch, hin, hta, if_neg (by simp [hi]), if_neg (by simp [hi])]
    exact ⟨rfl, rfl, rfl⟩
  · intro hnil
    subst hnil
    rw [hap, hch, hta]
    simp [hin]

/-- Witness for C10 on the concrete installment transaction: the paid
amount is 60,000 (not the scalar 30,000) and the change is 10,000. -/
theorem c10_installment_payment_overrides_witness :
    create_transaction .standard 2 scenario_d_cart 30000 "cash"
        [20000, 20000, 20000] = some c10_example_txn
    ∧ ([20000, 20000, 20000] : List Int) ≠ []
    ∧ c10_example_txn.payment.amount_paid = ([20000, 20000, 20000] : List Int).sum
    ∧ c10_example_txn.payment.change_amount
        = max 0 (([20000, 20000, 20000] : List Int).sum - c10_example_txn.total_amount)
    ∧ c10_example_txn.payment.amount_paid = 60000
    ∧ c10_example_txn.payment.change_amount = 10000 :=
  have h : create_transaction .standard 2 scenario_d_cart 30000 "cash"
      [20000, 20000, 20000] = some c10_example_txn := by rfl
  have h2 := (c10_installment_payment_overrides .standard 2 scenario_d_cart
    30000 "cash" [20000, 20000, 20000] c10_example_txn h).1 (by decide)
  ⟨h, by decide, h2.1, h2.2.1, by decide, by decide⟩
